import Mathlib

/-!
Shallow embedding of the Medicine Reminder core (src/main.py) and proofs of
its specified properties.

Modelling conventions:
* Calendar dates are integers (days since a fixed epoch): `parse` of an ISO
  date string, `relativedelta(days=n)` addition/subtraction and `.date()`
  comparison all become `Int` arithmetic and comparison.
* A Python `dict` is an association list in insertion order with distinct
  keys: assignment to an existing key keeps its position, a new key is
  appended at the end (`dictInsert`), and `k in d` / `d[k]` is `dictGet`.
* The generated uuid identifiers and the wall clock (`datetime.datetime.now()`)
  are external inputs, passed as explicit arguments.
* A raised `ValueError` is `Except.error`; it is raised before any mutation,
  so no state accompanies the error.
-/

namespace MedReminder

/-- Calendar date, as an integer number of days. -/
abbrev Date := Int

/-- Medicine record, with the fields `add_medicine` creates
(src/main.py lines 140-148). -/
structure Medicine where
  id : String
  name : String
  dosage : String
  quantity : Int
  refill_period_days : Int
  added_date : Date
  last_refill_date : Date
deriving DecidableEq, Repr

/-- Reminder record, with the fields `set_reminder` creates
(src/main.py lines 164-168); `last_reminded_date` is absent (`none`) until the
scheduler scan sets it (line 122). -/
structure Reminder where
  medicine_id : String
  days_before_empty : Int
  reminder_time : String
  last_reminded_date : Option Date
deriving DecidableEq, Repr

/-- Order record, with the fields `order_refill` creates
(src/main.py lines 183-190). -/
structure Order where
  id : String
  medicine_id : String
  medicine_name : String
  medicine_dosage : String
  order_date : Date
  status : String
deriving DecidableEq, Repr

/-- The three keyed collections held by `MedicineReminder`
(src/main.py lines 51-53). -/
@[ext]
structure State where
  medicines : List (String × Medicine)
  reminders : List (String × Reminder)
  orders : List (String × Order)
deriving DecidableEq, Repr

/-- Dict read: `d[k]` and the `k in d` test (`dictGet k d = none` iff
`k not in d`). -/
def dictGet (k : String) : List (String × α) → Option α
  | [] => none
  | p :: rest => if p.1 = k then some p.2 else dictGet k rest

/-- Dict write `d[k] = v`: an existing key keeps its position, a new key is
appended at the end. -/
def dictInsert (k : String) (v : α) : List (String × α) → List (String × α)
  | [] => [(k, v)]
  | p :: rest => if p.1 = k then (k, v) :: rest else p :: dictInsert k v rest

/-- Embedding of `int(reminder_time.split(':')[0])` (src/main.py line 107):
the decimal value of the digit characters before the first colon. -/
def parsedHour (t : String) : Nat :=
  (t.toList.takeWhile (fun c => decide (c ≠ ':'))).foldl
    (fun acc c => 10 * acc + (c.toNat - 48)) 0

/-- Embedding of src/main.py lines 110-111, the projection computed inside
`_check_reminders`: `(empty_date, reminder_date)`. -/
def scan_projection (last_refill_date refill_period days_before_empty : Int) :
    Date × Date :=
  let empty_date := last_refill_date + refill_period
  let reminder_date := empty_date - days_before_empty
  (empty_date, reminder_date)

/-- Embedding of src/main.py lines 219-220, the projection computed inside
`get_upcoming_reminders`: `(empty_date, reminder_date)`. -/
def upcoming_projection (last_refill_date refill_period days_before_empty : Int) :
    Date × Date :=
  let empty_date := last_refill_date + refill_period
  let reminder_date := empty_date - days_before_empty
  (empty_date, reminder_date)

/-- Body of the loop in `_check_reminders` (src/main.py lines 97-123) for one
`(medicine_id, reminder)` entry: the fired medicine id (`some` iff the
notifier was invoked for it) and the entry as the loop leaves it. -/
def scan_reminder (medicines : List (String × Medicine)) (today : Date)
    (current_hour : Nat) (p : String × Reminder) :
    Option String × (String × Reminder) :=
  match dictGet p.1 medicines with
  | none => (none, p)
  | some medicine =>
    let reminder_hour := parsedHour p.2.reminder_time
    let pr := scan_projection medicine.last_refill_date medicine.refill_period_days
      p.2.days_before_empty
    if pr.2 = today ∧ reminder_hour = current_hour ∧
        p.2.last_reminded_date ≠ some today then
      (some p.1, (p.1, { p.2 with last_reminded_date := some today }))
    else
      (none, p)

/-- Embedding of `_check_reminders` (src/main.py lines 91-123) at a reference
time whose calendar date is `today` and whose hour is `current_hour`: the list
of medicine ids the notifier fired for, in scan order, and the state after the
scan.  Each dict entry is read and (only) itself possibly updated in its own
iteration, so the loop is the entrywise map below. -/
def check_reminders (s : State) (today : Date) (current_hour : Nat) :
    List String × State :=
  let results := s.reminders.map (scan_reminder s.medicines today current_hour)
  (results.filterMap Prod.fst, { s with reminders := results.map Prod.snd })

/-- Entry of the list built by `get_upcoming_reminders`
(src/main.py lines 224-231). -/
structure UpcomingEntry where
  medicine_id : String
  medicine_name : String
  medicine_dosage : String
  reminder_date : Date
  empty_date : Date
  reminder_time : String
deriving DecidableEq, Repr

/-- Body of the loop in `get_upcoming_reminders` (src/main.py lines 209-231)
for one `(medicine_id, reminder)` entry: the entry appended to `upcoming`,
if any. -/
def upcoming_entry (medicines : List (String × Medicine)) (today : Date)
    (p : String × Reminder) : Option UpcomingEntry :=
  match dictGet p.1 medicines with
  | none => none
  | some medicine =>
    let pr := upcoming_projection medicine.last_refill_date
      medicine.refill_period_days p.2.days_before_empty
    if today ≤ pr.2 then
      some { medicine_id := p.1, medicine_name := medicine.name,
             medicine_dosage := medicine.dosage, reminder_date := pr.2,
             empty_date := pr.1, reminder_time := p.2.reminder_time }
    else
      none

/-- Comparison used by `upcoming.sort(key=lambda x: x['reminder_date'])`
(src/main.py line 234): ISO date strings compare like the dates themselves. -/
def entryLE (a b : UpcomingEntry) : Prop := a.reminder_date ≤ b.reminder_date

instance : DecidableRel entryLE := fun a b =>
  inferInstanceAs (Decidable (a.reminder_date ≤ b.reminder_date))

instance : IsTotal UpcomingEntry entryLE :=
  ⟨fun a b => Int.le_total a.reminder_date b.reminder_date⟩

instance : IsTrans UpcomingEntry entryLE :=
  ⟨fun _ _ _ hab hbc => le_trans hab hbc⟩

/-- Embedding of `get_upcoming_reminders` (src/main.py lines 203-235): the loop
appends one entry per included reminder, threading the object state (which it
only reads), then `upcoming.sort(...)` stable-sorts ascending by reminder
date (insertion sort is that stable sort).  Returns the list together with the
state the method leaves behind. -/
def get_upcoming_reminders (s : State) (today : Date) :
    List UpcomingEntry × State :=
  let r := s.reminders.foldl
    (fun (acc : List UpcomingEntry × State) p =>
      match upcoming_entry acc.2.medicines today p with
      | none => acc
      | some e => (acc.1 ++ [e], acc.2))
    ([], s)
  (r.1.insertionSort entryLE, r.2)

/-- Embedding of `add_medicine` (src/main.py lines 135-153); the generated
uuid id and the clock's date arrive as arguments.  The source performs no
validation of any argument. -/
def add_medicine (s : State) (name dosage : String)
    (quantity refill_period_days : Int) (medicine_id : String) (today : Date) :
    Medicine × State :=
  let medicine : Medicine :=
    { id := medicine_id, name := name, dosage := dosage, quantity := quantity,
      refill_period_days := refill_period_days, added_date := today,
      last_refill_date := today }
  (medicine, { s with medicines := dictInsert medicine_id medicine s.medicines })

/-- Embedding of `set_reminder` (src/main.py lines 159-173).  The source
performs no validation of `days_before_empty`. -/
def set_reminder (s : State) (medicine_id : String) (days_before_empty : Int)
    (reminder_time : String) : Except String (Reminder × State) :=
  match dictGet medicine_id s.medicines with
  | none => .error ("Medicine with ID " ++ medicine_id ++ " not found")
  | some _ =>
    let reminder : Reminder :=
      { medicine_id := medicine_id, days_before_empty := days_before_empty,
        reminder_time := reminder_time, last_reminded_date := none }
    .ok (reminder, { s with reminders := dictInsert medicine_id reminder s.reminders })

/-- Embedding of `order_refill` (src/main.py lines 175-201); the generated
order id and the clock's date arrive as arguments. -/
def order_refill (s : State) (medicine_id : String) (order_id : String)
    (today : Date) : Except String (Order × State) :=
  match dictGet medicine_id s.medicines with
  | none => .error ("Medicine with ID " ++ medicine_id ++ " not found")
  | some medicine =>
    let order : Order :=
      { id := order_id, medicine_id := medicine_id,
        medicine_name := medicine.name, medicine_dosage := medicine.dosage,
        order_date := today, status := "placed" }
    .ok (order,
      { s with
          medicines :=
            dictInsert medicine_id { medicine with last_refill_date := today } s.medicines,
          orders := dictInsert order_id order s.orders })

/-! ### Helper lemmas -/

lemma check_reminders_fst (s : State) (today : Date) (hour : Nat) :
    (check_reminders s today hour).1 =
      s.reminders.filterMap (fun p => (scan_reminder s.medicines today hour p).1) := by
  simp [check_reminders, List.filterMap_map, Function.comp_def]

lemma check_reminders_reminders (s : State) (today : Date) (hour : Nat) :
    (check_reminders s today hour).2.reminders =
      s.reminders.map (fun p => (scan_reminder s.medicines today hour p).2) := by
  simp [check_reminders, List.map_map, Function.comp]

lemma check_reminders_medicines (s : State) (today : Date) (hour : Nat) :
    (check_reminders s today hour).2.medicines = s.medicines := rfl

lemma check_reminders_orders (s : State) (today : Date) (hour : Nat) :
    (check_reminders s today hour).2.orders = s.orders := rfl

lemma scan_reminder_fst_eq_some {M : List (String × Medicine)} {today : Date}
    {hour : Nat} {p : String × Reminder} {i : String} :
    (scan_reminder M today hour p).1 = some i ↔
      i = p.1 ∧ ∃ m, dictGet p.1 M = some m ∧
        m.last_refill_date + m.refill_period_days - p.2.days_before_empty = today ∧
        parsedHour p.2.reminder_time = hour ∧
        p.2.last_reminded_date ≠ some today := by
  unfold scan_reminder
  cases h : dictGet p.1 M with
  | none =>
    simp only [h]
    constructor
    · intro hcontra
      exact absurd hcontra (by simp)
    · rintro ⟨rfl, m, hm, -⟩
      exact absurd hm (by simp)
  | some m =>
    simp only [h, scan_projection]
    split_ifs with hc
    · constructor
      · intro hi
        injection hi with hi
        exact ⟨hi.symm, m, rfl, hc.1, hc.2.1, hc.2.2⟩
      · rintro ⟨rfl, -⟩
        rfl
    · constructor
      · intro hi
        exact absurd hi (by simp)
      · rintro ⟨rfl, m', hm', h1, h2, h3⟩
        injection hm' with e
        subst e
        exact absurd ⟨h1, h2, h3⟩ hc

lemma scan_reminder_cases (M : List (String × Medicine)) (t : Date) (hr : Nat)
    (p : String × Reminder) :
    scan_reminder M t hr p = (none, p) ∨
      ∃ m, dictGet p.1 M = some m ∧
        scan_reminder M t hr p =
          (some p.1, (p.1, { p.2 with last_reminded_date := some t })) := by
  unfold scan_reminder
  cases h : dictGet p.1 M with
  | none => exact Or.inl rfl
  | some m =>
    dsimp only
    split_ifs with hc
    · exact Or.inr ⟨m, rfl, rfl⟩
    · exact Or.inl rfl

lemma scan_reminder_snd_idem (M : List (String × Medicine)) (today : Date)
    (hour : Nat) (p : String × Reminder) :
    scan_reminder M today hour (scan_reminder M today hour p).2 =
      (none, (scan_reminder M today hour p).2) := by
  rcases scan_reminder_cases M today hour p with he | ⟨m, h, he⟩
  · rw [he]
    show scan_reminder M today hour p = (none, p)
    exact he
  · rw [he]
    show scan_reminder M today hour
      (p.1, { p.2 with last_reminded_date := some today }) = _
    simp [scan_reminder, h]

lemma mem_of_nodup_keys {l : List (String × β)} (h : (l.map Prod.fst).Nodup)
    {a b : String × β} (ha : a ∈ l) (hb : b ∈ l) (hk : a.1 = b.1) : a = b := by
  induction l with
  | nil => cases ha
  | cons x xs ih =>
    rw [List.map_cons, List.nodup_cons] at h
    cases ha with
    | head =>
      cases hb with
      | head => rfl
      | tail _ hb' =>
        exact absurd (hk ▸ List.mem_map_of_mem Prod.fst hb') h.1
    | tail _ ha' =>
      cases hb with
      | head =>
        exact absurd (hk ▸ List.mem_map_of_mem Prod.fst ha') h.1
      | tail _ hb' => exact ih h.2 ha' hb'

lemma dictGet_dictInsert_self (k : String) (v : α) (l : List (String × α)) :
    dictGet k (dictInsert k v l) = some v := by
  induction l with
  | nil => simp [dictGet, dictInsert]
  | cons p rest ih =>
    by_cases h : p.1 = k
    · simp [dictGet, dictInsert, h]
    · simp [dictGet, dictInsert, h, ih]

lemma dictInsert_of_not_mem {k : String} {l : List (String × α)}
    (h : dictGet k l = none) (v : α) : dictInsert k v l = l ++ [(k, v)] := by
  induction l with
  | nil => rfl
  | cons p rest ih =>
    rw [dictGet] at h
    by_cases hp : p.1 = k
    · rw [if_pos hp] at h
      cases h
    · rw [if_neg hp] at h
      simp [dictInsert, hp, ih h]

lemma scan_reminder_orphan {M : List (String × Medicine)} {t : Date} {hr : Nat}
    {p : String × Reminder} (h : dictGet p.1 M = none) :
    scan_reminder M t hr p = (none, p) := by
  unfold scan_reminder
  rw [h]

lemma upcoming_entry_eq_some {M : List (String × Medicine)} {today : Date}
    {p : String × Reminder} {e : UpcomingEntry}
    (h : upcoming_entry M today p = some e) :
    e.medicine_id = p.1 ∧ today ≤ e.reminder_date ∧
      ∃ m, dictGet p.1 M = some m := by
  unfold upcoming_entry at h
  cases hm : dictGet p.1 M with
  | none => rw [hm] at h; cases h
  | some m =>
    rw [hm] at h
    simp only [upcoming_projection] at h
    split_ifs at h with hc
    injection h with h
    subst h
    exact ⟨rfl, hc, m, rfl⟩

lemma upcoming_foldl (M : State) (today : Date) (l : List (String × Reminder))
    (acc : List UpcomingEntry) :
    l.foldl
      (fun (a : List UpcomingEntry × State) p =>
        match upcoming_entry a.2.medicines today p with
        | none => a
        | some e => (a.1 ++ [e], a.2)) (acc, M) =
      (acc ++ l.filterMap (upcoming_entry M.medicines today), M) := by
  induction l generalizing acc with
  | nil => simp
  | cons p rest ih =>
    rw [List.foldl_cons, List.filterMap_cons]
    cases h : upcoming_entry M.medicines today p with
    | none => simpa [h] using ih acc
    | some e => simp [h, ih (acc ++ [e])]

lemma get_upcoming_fst (s : State) (today : Date) :
    (get_upcoming_reminders s today).1 =
      (s.reminders.filterMap
        (upcoming_entry s.medicines today)).insertionSort entryLE := by
  unfold get_upcoming_reminders
  rw [upcoming_foldl]
  simp

lemma get_upcoming_snd (s : State) (today : Date) :
    (get_upcoming_reminders s today).2 = s := by
  unfold get_upcoming_reminders
  rw [upcoming_foldl]

lemma filter_orderedInsert_of_key {d : Date} {x : UpcomingEntry}
    (hx : x.reminder_date = d) (S : List UpcomingEntry) :
    (S.orderedInsert entryLE x).filter (fun e => decide (e.reminder_date = d)) =
      x :: S.filter (fun e => decide (e.reminder_date = d)) := by
  induction S with
  | nil => simp [List.orderedInsert, hx]
  | cons b S ih =>
    rw [List.orderedInsert]
    split_ifs with hb
    · simp [List.filter_cons, hx]
    · have hbd : ¬ b.reminder_date = d := by
        intro hbd
        apply hb
        show x.reminder_date ≤ b.reminder_date
        rw [hx, hbd]
      simp [List.filter_cons, hbd, ih]

lemma filter_orderedInsert_of_ne {d : Date} {x : UpcomingEntry}
    (hx : ¬ x.reminder_date = d) (S : List UpcomingEntry) :
    (S.orderedInsert entryLE x).filter (fun e => decide (e.reminder_date = d)) =
      S.filter (fun e => decide (e.reminder_date = d)) := by
  induction S with
  | nil => simp [List.orderedInsert, hx]
  | cons b S ih =>
    rw [List.orderedInsert]
    split_ifs with hb
    · simp [List.filter_cons, hx]
    · by_cases hbd : b.reminder_date = d <;>
        simp [List.filter_cons, hbd, ih]

lemma filter_insertionSort (d : Date) (l : List UpcomingEntry) :
    (l.insertionSort entryLE).filter (fun e => decide (e.reminder_date = d)) =
      l.filter (fun e => decide (e.reminder_date = d)) := by
  induction l with
  | nil => rfl
  | cons x l ih =>
    rw [List.insertionSort]
    by_cases hx : x.reminder_date = d
    · rw [filter_orderedInsert_of_key hx, ih, List.filter_cons, if_pos (by simp [hx])]
    · rw [filter_orderedInsert_of_ne hx, ih, List.filter_cons, if_neg (by simp [hx])]

/-! ### Fixtures used by the witnesses -/

/-- Fixture medicine: refilled on day 0, a refill lasts 30 days. -/
def medA : Medicine :=
  { id := "m1", name := "Lisinopril", dosage := "10mg", quantity := 30,
    refill_period_days := 30, added_date := 0, last_refill_date := 0 }

/-- Fixture reminder: 5 days before empty, at 08:00, never fired. -/
def remA : Reminder :=
  { medicine_id := "m1", days_before_empty := 5, reminder_time := "08:00",
    last_reminded_date := none }

/-- Fixture store: one medicine with one reminder. -/
def stA : State :=
  { medicines := [("m1", medA)], reminders := [("m1", remA)], orders := [] }

/-- Fixture reminder that already fired on day 25. -/
def remB : Reminder :=
  { medicine_id := "m1", days_before_empty := 30, reminder_time := "08:00",
    last_reminded_date := some 25 }

/-- Fixture store whose only reminder already fired on day 25. -/
def stB : State :=
  { medicines := [("m1", medA)], reminders := [("m1", remB)], orders := [] }

/-- Fixture store with an orphaned reminder (no medicine "mx"). -/
def stC : State :=
  { medicines := [],
    reminders := [("mx", { remA with medicine_id := "mx" })], orders := [] }

/-! ### Claim theorems -/

/-- C1: for a medicine with `last_refill_date = D`, `refill_period_days = P`
and a reminder with `days_before_empty = B`, the projection computed by the
scheduler scan (src/main.py lines 110-111) and the one computed by the
upcoming-reminders query (lines 219-220) both give
`empty_date = D + P` and `fire_date = D + P - B` exactly, in calendar days. -/
theorem projection_correct (D P B : Int) :
    scan_projection D P B = (D + P, D + P - B) ∧
    upcoming_projection D P B = (D + P, D + P - B) :=
  ⟨rfl, rfl⟩

/-- C2: during a scan at a reference time with calendar date `today` and hour
`hour`, the notifier is invoked for the reminder `R` with key `id` iff the
medicine exists, the projected fire date equals `today`, the hour equals the
parsed hour of `R.reminder_time`, and `R.last_reminded_date` differs from
`today`. -/
theorem fires_iff (s : State) (today : Date) (hour : Nat) (id : String)
    (R : Reminder) (hnd : (s.reminders.map Prod.fst).Nodup)
    (hmem : (id, R) ∈ s.reminders) :
    id ∈ (check_reminders s today hour).1 ↔
      ∃ m, dictGet id s.medicines = some m ∧
        m.last_refill_date + m.refill_period_days - R.days_before_empty = today ∧
        parsedHour R.reminder_time = hour ∧
        R.last_reminded_date ≠ some today := by
  rw [check_reminders_fst, List.mem_filterMap]
  constructor
  · rintro ⟨p, hp, hsome⟩
    rw [scan_reminder_fst_eq_some] at hsome
    obtain ⟨hid, hrest⟩ := hsome
    have hpe : p = (id, R) := mem_of_nodup_keys hnd hp hmem hid.symm
    rw [hpe] at hrest
    exact hrest
  · rintro ⟨m, hm, h1, h2, h3⟩
    exact ⟨(id, R), hmem,
      scan_reminder_fst_eq_some.mpr ⟨rfl, m, hm, h1, h2, h3⟩⟩

/-- C3: running the scheduler scan twice at the same reference time fires
nothing on the second scan (so the notifier fires at most once per reminder
for that calendar day) and the state after the second scan equals the state
after the first. -/
theorem scan_idempotent (s : State) (today : Date) (hour : Nat) :
    check_reminders (check_reminders s today hour).2 today hour =
      ([], (check_reminders s today hour).2) := by
  refine Prod.ext ?_ ?_
  · rw [check_reminders_fst]
    rw [List.filterMap_eq_nil_iff]
    intro p hp
    rw [check_reminders_reminders] at hp
    obtain ⟨q, _, rfl⟩ := List.mem_map.mp hp
    rw [check_reminders_medicines, scan_reminder_snd_idem]
  · have hrem :
        (check_reminders (check_reminders s today hour).2 today hour).2.reminders =
          (check_reminders s today hour).2.reminders := by
      rw [check_reminders_reminders, check_reminders_reminders,
        check_reminders_medicines, List.map_map]
      refine List.map_congr_left ?_
      intro p _
      show (scan_reminder s.medicines today hour
        ((scan_reminder s.medicines today hour p).2)).2 = _
      rw [scan_reminder_snd_idem]
    have hmed :
        (check_reminders (check_reminders s today hour).2 today hour).2.medicines =
          (check_reminders s today hour).2.medicines :=
      check_reminders_medicines _ _ _
    have hord :
        (check_reminders (check_reminders s today hour).2 today hour).2.orders =
          (check_reminders s today hour).2.orders :=
      check_reminders_orders _ _ _
    exact State.ext hmed hrem hord

/-- Witness for C2: in the fixture store on day 25 at hour 8 the reminder for
"m1" fires. -/
theorem fires_iff_witness : "m1" ∈ (check_reminders stA 25 8).1 :=
  (fires_iff stA 25 8 "m1" remA (by decide) (by decide)).mpr
    ⟨medA, by decide, by decide, by decide, by decide⟩

/-- C4 counterexample: `add_medicine` with `refill_period_days = 0` still
creates and stores a medicine record (no failure), refuting the claim that it
rejects non-positive refill periods with an error and stores nothing. -/
theorem no_validation_cex :
    ((add_medicine { medicines := [], reminders := [], orders := [] }
        "Aspirin" "100mg" 30 0 "m0" 0).2.medicines).length = 1 := rfl

/-- C4 amended: the mutation operations perform no argument validation:
`add_medicine` always creates and stores the medicine record even when
`refill_period_days ≤ 0`, and `set_reminder` on an existing medicine always
stores the reminder even when `days_before_empty < 0`. -/
theorem no_validation (s : State) (n d : String) (q P : Int) (mid : String)
    (today : Date) (B : Int) (rid rt : String) (m : Medicine)
    (hP : P ≤ 0) (hB : B < 0) (hm : dictGet rid s.medicines = some m) :
    (add_medicine s n d q P mid today).2.medicines =
      dictInsert mid (add_medicine s n d q P mid today).1 s.medicines ∧
    (add_medicine s n d q P mid today).1.refill_period_days = P ∧
    set_reminder s rid B rt =
      .ok ({ medicine_id := rid, days_before_empty := B, reminder_time := rt,
             last_reminded_date := none },
        { s with
            reminders := dictInsert rid
              ({ medicine_id := rid, days_before_empty := B,
                 reminder_time := rt, last_reminded_date := none })
              s.reminders }) := by
  refine ⟨rfl, rfl, ?_⟩
  unfold set_reminder
  rw [hm]

/-- Witness for the amended C4: with `refill_period_days = 0` and
`days_before_empty = -1` both operations succeed and store records. -/
theorem no_validation_witness :
    (add_medicine stA "Aspirin" "100mg" 30 0 "m2" 25).2.medicines =
      dictInsert "m2" (add_medicine stA "Aspirin" "100mg" 30 0 "m2" 25).1
        stA.medicines ∧
    (add_medicine stA "Aspirin" "100mg" 30 0 "m2" 25).1.refill_period_days = 0 ∧
    set_reminder stA "m1" (-1) "09:00" =
      .ok ({ medicine_id := "m1", days_before_empty := -1,
             reminder_time := "09:00", last_reminded_date := none },
        { stA with
            reminders := dictInsert "m1"
              ({ medicine_id := "m1", days_before_empty := -1,
                 reminder_time := "09:00", last_reminded_date := none })
              stA.reminders }) :=
  no_validation stA "Aspirin" "100mg" 30 0 "m2" 25 (-1) "m1" "09:00" medA
    (by decide) (by decide) (by decide)

/-- C5: `set_reminder` fails with the not-found error when the medicine id is
absent (the error is raised before any mutation, so no state accompanies it);
when the medicine exists it stores a fresh record that replaces any existing
reminder under that id and carries no `last_reminded_date` marker, and reading
the id back yields exactly that fresh record. -/
theorem set_reminder_spec (s : State) (mid : String) (B : Int) (rt : String) :
    (dictGet mid s.medicines = none →
      set_reminder s mid B rt =
        .error ("Medicine with ID " ++ mid ++ " not found")) ∧
    (∀ m, dictGet mid s.medicines = some m →
      set_reminder s mid B rt =
        .ok ({ medicine_id := mid, days_before_empty := B, reminder_time := rt,
               last_reminded_date := none },
          { s with
              reminders := dictInsert mid
                ({ medicine_id := mid, days_before_empty := B,
                   reminder_time := rt, last_reminded_date := none })
                s.reminders }) ∧
      dictGet mid (dictInsert mid
          { medicine_id := mid, days_before_empty := B, reminder_time := rt,
            last_reminded_date := none } s.reminders) =
        some { medicine_id := mid, days_before_empty := B, reminder_time := rt,
               last_reminded_date := none }) := by
  constructor
  · intro h
    unfold set_reminder
    rw [h]
  · intro m hm
    refine ⟨?_, dictGet_dictInsert_self ..⟩
    unfold set_reminder
    rw [hm]

/-- Witness for C5: the error branch on a missing id and the replace branch on
the fixture store. -/
theorem set_reminder_spec_witness :
    set_reminder stA "zz" 5 "08:00" =
      .error ("Medicine with ID " ++ "zz" ++ " not found") ∧
    (set_reminder stA "m1" 7 "09:00" =
      .ok ({ medicine_id := "m1", days_before_empty := 7,
             reminder_time := "09:00", last_reminded_date := none },
        { stA with
            reminders := dictInsert "m1"
              ({ medicine_id := "m1", days_before_empty := 7,
                 reminder_time := "09:00", last_reminded_date := none })
              stA.reminders }) ∧
      dictGet "m1" (dictInsert "m1"
          { medicine_id := "m1", days_before_empty := 7,
            reminder_time := "09:00", last_reminded_date := none }
          stA.reminders) =
        some { medicine_id := "m1", days_before_empty := 7,
               reminder_time := "09:00", last_reminded_date := none }) :=
  ⟨(set_reminder_spec stA "zz" 5 "08:00").1 (by decide),
   (set_reminder_spec stA "m1" 7 "09:00").2 medA (by decide)⟩

/-- C6: `order_refill` fails with the not-found error when the medicine is
absent; when it exists (and the generated order id is fresh) it appends
exactly one order with status "placed" snapshotting the medicine's name and
dosage, sets the medicine's `last_refill_date` to today, and the fire date
recomputed from the new `last_refill_date` equals (hence is at least)
`today + (refill_period_days - days_before_empty)` for every reminder
configuration `B`. -/
theorem order_refill_spec (s : State) (mid oid : String) (today : Date) :
    (dictGet mid s.medicines = none →
      order_refill s mid oid today =
        .error ("Medicine with ID " ++ mid ++ " not found")) ∧
    (∀ m, dictGet mid s.medicines = some m → dictGet oid s.orders = none →
      order_refill s mid oid today =
        .ok ({ id := oid, medicine_id := mid, medicine_name := m.name,
               medicine_dosage := m.dosage, order_date := today,
               status := "placed" },
          { s with
              medicines :=
                dictInsert mid { m with last_refill_date := today } s.medicines,
              orders := s.orders ++ [(oid,
                { id := oid, medicine_id := mid, medicine_name := m.name,
                  medicine_dosage := m.dosage, order_date := today,
                  status := "placed" })] }) ∧
      dictGet mid (dictInsert mid { m with last_refill_date := today }
          s.medicines) = some { m with last_refill_date := today } ∧
      ∀ B : Int,
        (scan_projection today m.refill_period_days B).2 =
          today + (m.refill_period_days - B) ∧
        today + (m.refill_period_days - B) ≤
          (scan_projection today m.refill_period_days B).2) := by
  constructor
  · intro h
    unfold order_refill
    rw [h]
  · intro m hm hfresh
    refine ⟨?_, dictGet_dictInsert_self .., ?_⟩
    · unfold order_refill
      simp only [hm]
      rw [dictInsert_of_not_mem hfresh]
    · intro B
      constructor
      · show today + m.refill_period_days - B = today + (m.refill_period_days - B)
        rw [add_sub_assoc]
      · show today + (m.refill_period_days - B) ≤ today + m.refill_period_days - B
        rw [add_sub_assoc]

/-- Witness for C6: the error branch on a missing id, and a refill of the
fixture medicine on day 25. -/
theorem order_refill_spec_witness :
    order_refill stA "zz" "o1" 25 =
      .error ("Medicine with ID " ++ "zz" ++ " not found") ∧
    order_refill stA "m1" "o1" 25 =
      .ok ({ id := "o1", medicine_id := "m1", medicine_name := medA.name,
             medicine_dosage := medA.dosage, order_date := 25,
             status := "placed" },
        { stA with
            medicines :=
              dictInsert "m1" { medA with last_refill_date := 25 } stA.medicines,
            orders := stA.orders ++ [("o1",
              { id := "o1", medicine_id := "m1", medicine_name := medA.name,
                medicine_dosage := medA.dosage, order_date := 25,
                status := "placed" })] }) ∧
    (scan_projection 25 medA.refill_period_days 5).2 =
      25 + (medA.refill_period_days - 5) :=
  ⟨(order_refill_spec stA "zz" "o1" 25).1 (by decide),
   ((order_refill_spec stA "m1" "o1" 25).2 medA (by decide) (by decide)).1,
   (((order_refill_spec stA "m1" "o1" 25).2 medA (by decide)
      (by decide)).2.2 5).1⟩

/-- C7: a reminder whose medicine id is absent from the medicines collection
never makes the scan invoke the notifier, is left unchanged by the scan, and
is omitted from the upcoming-reminders result; no error is raised (both
operations are total functions). -/
theorem orphan_safe (s : State) (today : Date) (hour : Nat) (id : String)
    (R : Reminder) (hmem : (id, R) ∈ s.reminders)
    (horph : dictGet id s.medicines = none) :
    id ∉ (check_reminders s today hour).1 ∧
    (id, R) ∈ (check_reminders s today hour).2.reminders ∧
    ∀ e ∈ (get_upcoming_reminders s today).1, e.medicine_id ≠ id := by
  refine ⟨?_, ?_, ?_⟩
  · rw [check_reminders_fst]
    intro hin
    obtain ⟨p, _, hsome⟩ := List.mem_filterMap.mp hin
    obtain ⟨hid, m, hm, -⟩ := scan_reminder_fst_eq_some.mp hsome
    rw [← hid] at hm
    rw [horph] at hm
    cases hm
  · rw [check_reminders_reminders]
    have hfix : (scan_reminder s.medicines today hour (id, R)).2 = (id, R) := by
      rw [scan_reminder_orphan horph]
    exact hfix ▸ List.mem_map_of_mem _ hmem
  · intro e he hid
    rw [get_upcoming_fst, List.mem_insertionSort] at he
    obtain ⟨p, -, hpe⟩ := List.mem_filterMap.mp he
    obtain ⟨hpid, -, m, hm⟩ := upcoming_entry_eq_some hpe
    rw [hid] at hpid
    rw [← hpid] at hm
    rw [horph] at hm
    cases hm

/-- Witness for C7: the orphaned reminder in the fixture store neither fires
nor changes. -/
theorem orphan_safe_witness :
    "mx" ∉ (check_reminders stC 25 8).1 ∧
    ("mx", { remA with medicine_id := "mx" }) ∈
      (check_reminders stC 25 8).2.reminders :=
  ⟨(orphan_safe stC 25 8 "mx" { remA with medicine_id := "mx" }
      (by decide) rfl).1,
   (orphan_safe stC 25 8 "mx" { remA with medicine_id := "mx" }
      (by decide) rfl).2.1⟩

/-- C8: every entry returned by the upcoming-reminders query has fire date at
least the reference date, the result is sorted non-decreasing by fire date,
and entries of equal fire date `d` appear in the insertion order of the
reminders collection (the filter at `d` of the result equals the filter at
`d` of the unsorted per-reminder projection list). -/
theorem upcoming_sorted (s : State) (today d : Date) :
    (∀ e ∈ (get_upcoming_reminders s today).1, today ≤ e.reminder_date) ∧
    List.Sorted entryLE (get_upcoming_reminders s today).1 ∧
    (get_upcoming_reminders s today).1.filter
        (fun e => decide (e.reminder_date = d)) =
      (s.reminders.filterMap (upcoming_entry s.medicines today)).filter
        (fun e => decide (e.reminder_date = d)) := by
  refine ⟨?_, ?_, ?_⟩
  · intro e he
    rw [get_upcoming_fst, List.mem_insertionSort] at he
    obtain ⟨p, -, hpe⟩ := List.mem_filterMap.mp he
    exact (upcoming_entry_eq_some hpe).2.1
  · rw [get_upcoming_fst]
    exact List.sorted_insertionSort entryLE _
  · rw [get_upcoming_fst, filter_insertionSort]

/-- Witness for C8: on the fixture store at reference date 10, the single
projected entry (fire date 25) is in the future, the result is sorted, and
the filter at fire date 25 agrees with the unsorted projection list. -/
theorem upcoming_sorted_witness :
    (10 : Int) ≤
      ({ medicine_id := "m1", medicine_name := "Lisinopril",
         medicine_dosage := "10mg", reminder_date := 25, empty_date := 30,
         reminder_time := "08:00" } : UpcomingEntry).reminder_date ∧
    List.Sorted entryLE (get_upcoming_reminders stA 10).1 ∧
    (get_upcoming_reminders stA 10).1.filter
        (fun e => decide (e.reminder_date = 25)) =
      (stA.reminders.filterMap (upcoming_entry stA.medicines 10)).filter
        (fun e => decide (e.reminder_date = 25)) :=
  ⟨(upcoming_sorted stA 10 25).1
      { medicine_id := "m1", medicine_name := "Lisinopril",
        medicine_dosage := "10mg", reminder_date := 25, empty_date := 30,
        reminder_time := "08:00" } (by decide),
   (upcoming_sorted stA 10 25).2.1,
   (upcoming_sorted stA 10 25).2.2⟩

/-- C9: the upcoming-reminders query is read-only and idempotent: it leaves
the medicines, reminders (including every de-duplication marker) and orders
collections exactly unchanged, and a second call on the resulting state
returns the same result. -/
theorem upcoming_read_only (s : State) (today : Date) :
    (get_upcoming_reminders s today).2 = s ∧
    get_upcoming_reminders (get_upcoming_reminders s today).2 today =
      get_upcoming_reminders s today := by
  refine ⟨get_upcoming_snd s today, ?_⟩
  rw [get_upcoming_snd]

/-- C10: `order_refill` never modifies the reminders collection: on success
the reminder records, including their `last_reminded_date` markers, are
identical before and after, and consequently a reminder that already fired
today does not fire again in a scan of the post-refill state at the same
date, whatever its new fire date. -/
theorem order_refill_frame (s : State) (mid oid : String) (today : Date)
    (hour : Nat) (o : Order) (s2 : State)
    (h : order_refill s mid oid today = .ok (o, s2)) :
    s2.reminders = s.reminders ∧
    ∀ id R, (id, R) ∈ s2.reminders → R.last_reminded_date = some today →
      (s2.reminders.map Prod.fst).Nodup →
      id ∉ (check_reminders s2 today hour).1 := by
  have hrem : s2.reminders = s.reminders := by
    unfold order_refill at h
    cases hm : dictGet mid s.medicines with
    | none => rw [hm] at h; cases h
    | some m =>
      rw [hm] at h
      injection h with h
      injection h with h1 h2
      rw [← h2]
  refine ⟨hrem, ?_⟩
  intro id R hmem hfired hnd
  rw [check_reminders_fst]
  intro hin
  obtain ⟨p, hp, hsome⟩ := List.mem_filterMap.mp hin
  obtain ⟨hid, m, -, -, -, hne⟩ := scan_reminder_fst_eq_some.mp hsome
  have hpe : p = (id, R) := mem_of_nodup_keys hnd hp hmem hid.symm
  rw [hpe] at hne
  exact hne hfired

/-- Witness for C10: refilling the fixture medicine on day 25 leaves the
already-fired reminder untouched, and it does not fire again that day even
though its new fire date is day 25 itself. -/
theorem order_refill_frame_witness :
    ({ medicines := [("m1", { medA with last_refill_date := 25 })],
       reminders := stB.reminders,
       orders := [("o1",
         { id := "o1", medicine_id := "m1", medicine_name := medA.name,
           medicine_dosage := medA.dosage, order_date := 25,
           status := "placed" })] } : State).reminders = stB.reminders ∧
    "m1" ∉ (check_reminders
      { medicines := [("m1", { medA with last_refill_date := 25 })],
        reminders := stB.reminders,
        orders := [("o1",
          { id := "o1", medicine_id := "m1", medicine_name := medA.name,
            medicine_dosage := medA.dosage, order_date := 25,
            status := "placed" })] } 25 8).1 :=
  ⟨(order_refill_frame stB "m1" "o1" 25 8 _ _ rfl).1,
   (order_refill_frame stB "m1" "o1" 25 8 _ _ rfl).2 "m1" remB (by decide)
     (by decide) (by decide)⟩

end MedReminder
